import Mathlib

/-!
Shallow embedding of the HTML-to-image rendering pipeline of the
Data-report-system repository, covering:

* `src/storyteller/algorithm/utils/html2image.py`
  (`SimpleHTTPServerHandler`, `start_http_server`, `convert_html_file_to_image`)
* `src/storyteller/algorithm/utils/html_server.py`
  (`SimpleHTTPServerWithContentTypes`, `serve_directory`)

Pure computations (the injected `checkVegaRenderStatus` JavaScript, path
arithmetic, port selection) are translated to Lean functions.  Effectful
control flow is embedded by making each external outcome (server bind, HTTP
probe, browser launch, navigation, capture) an explicit input, and by
recording the sequence of observable side effects as a trace of events, so
that ordering and resource-release properties become statements about the
trace produced on every path through the Python `try`/`except`/`finally`
structure.
-/

namespace DataReport

/-! ## Chart containers and the injected `checkVegaRenderStatus` probe

`convert_html_file_to_image` injects a script defining
`window.checkVegaRenderStatus`: for each `.vega-embed` container it computes
`hasCanvas`, `hasMarks`, `hasSVG`, starts with `allRendered = true` and sets
it to `false` whenever `!(hasCanvas || hasMarks || hasSVG)`.
-/

/-- One discovered `.vega-embed` container, observed through the three
DOM queries the injected script performs on it. -/
structure VegaContainer where
  hasCanvas : Bool
  hasMarks : Bool
  hasSVG : Bool
deriving DecidableEq, Repr

/-- The value returned by the injected `window.checkVegaRenderStatus`. -/
structure RenderStatus where
  allRendered : Bool
  count : Nat
deriving DecidableEq, Repr

/-- Embedding of `window.checkVegaRenderStatus` from html2image.py:
fold over the containers, clearing `allRendered` whenever a container has
none of the three signals. -/
def checkVegaRenderStatus (containers : List VegaContainer) : RenderStatus :=
  { allRendered :=
      containers.foldl
        (fun allRendered c =>
          if !(c.hasCanvas || c.hasMarks || c.hasSVG) then false else allRendered)
        true
    count := containers.length }

/-- A container counts as rendered when any one of the three completion
signals (canvas, marks subtree, SVG) is present — the disjunction the
injected script tests. -/
def containerRendered (c : VegaContainer) : Bool :=
  c.hasCanvas || c.hasMarks || c.hasSVG

lemma checkVegaRenderStatus_foldl (cs : List VegaContainer) (b : Bool) :
    cs.foldl
      (fun allRendered c =>
        if !(c.hasCanvas || c.hasMarks || c.hasSVG) then false else allRendered)
      b = (b && cs.all containerRendered) := by
  induction cs generalizing b with
  | nil => simp
  | cons c cs ih =>
      simp only [List.foldl_cons, List.all_cons]
      rw [ih]
      by_cases h : (c.hasCanvas || c.hasMarks || c.hasSVG) = true
      · simp [h, containerRendered, Bool.and_assoc, Bool.and_comm]
      · simp only [Bool.not_eq_true] at h
        simp [h, containerRendered]

lemma checkVegaRenderStatus_allRendered (cs : List VegaContainer) :
    (checkVegaRenderStatus cs).allRendered = cs.all containerRendered := by
  simpa [checkVegaRenderStatus] using checkVegaRenderStatus_foldl cs true

/-! ## HTTP request handlers

`SimpleHTTPServerHandler` (html2image.py) overrides `end_headers` to append
three CORS headers before terminating the header block.
`SimpleHTTPServerWithContentTypes` (html_server.py) only extends
`extensions_map`; it does **not** override `end_headers`, so it inherits the
stock behaviour adding no extra headers.  We model `end_headers` as the
transformation applied to the headers accumulated for a response. -/

namespace SimpleHTTPServerHandler

/-- Embedding of `SimpleHTTPServerHandler.end_headers`: three CORS headers
are sent, then the inherited `end_headers` terminates the block. -/
def end_headers (hs : List (String × String)) : List (String × String) :=
  hs ++ [("Access-Control-Allow-Origin", "*"),
         ("Access-Control-Allow-Methods", "GET, POST, OPTIONS"),
         ("Access-Control-Allow-Headers", "Origin, Content-Type, Accept")]

end SimpleHTTPServerHandler

namespace SimpleHTTPServerWithContentTypes

/-- `SimpleHTTPServerWithContentTypes` does not override `end_headers`:
the inherited method adds no headers of its own. -/
def end_headers (hs : List (String × String)) : List (String × String) :=
  hs

/-- The extra MIME types the subclass registers on top of the defaults. -/
def extraExtensions : List (String × String) :=
  [(".csv", "text/csv"), (".json", "application/json"),
   (".geojson", "application/json"), (".md", "text/markdown")]

end SimpleHTTPServerWithContentTypes

/-- The headers of a response whose body-specific headers are `hs`, as
emitted by a handler whose `end_headers` transformation is `endHeaders`. -/
def responseHeaders (endHeaders : List (String × String) → List (String × String))
    (hs : List (String × String)) : List (String × String) :=
  endHeaders hs

/-! ## The ephemeral content servers

`start_http_server` (html2image.py) binds `TCPServer(("localhost", port))`
(port `0` asks the OS for a free port), starts a daemon serving thread,
sleeps one second and returns `(actual_port, httpd)` — it performs no
liveness probe.  `serve_directory` (html_server.py) resolves `port=None`
via `find_free_port`, raises `RuntimeError` when an explicit port is in
use, binds `TCPServer(("", port))` — the empty host, i.e. all interfaces —
and probes its own root up to five times before yielding the URL
regardless of the probes' outcome.

The network environment is embedded as the set of ports already bound
(`occupied`) plus the free port the OS would hand out for an
auto-assignment request (`freshPort`); whether the server answers its own
root on probe attempt `i` is the oracle `probe i`. -/

/-- The host part of a socket bind address: `"localhost"` versus `""`. -/
inductive BindHost
  | loopback
  | allInterfaces
deriving DecidableEq, Repr

/-- A bound TCP server socket: which interface it listens on and the
port actually bound. -/
structure TCPHandle where
  host : BindHost
  boundPort : Nat
deriving DecidableEq, Repr

/-- Failures the server-start operations can raise: `portInUse` stands for
the `OSError` a bind on an occupied port raises in `start_http_server` and
for the `RuntimeError` `serve_directory` raises after `is_port_in_use`. -/
inductive ServerError
  | portInUse
deriving DecidableEq, Repr

/-- Observable steps of `start_http_server`, recorded to state what the
function does (and does not do) before returning. -/
inductive StartEv
  | bindSocket
  | startThread
  | sleepOneSecond
  | probeAttempt
deriving DecidableEq, Repr

/-- Embedding of `socketserver.TCPServer((host, port), handler)`: port `0`
requests auto-assignment and binds the OS-chosen free port; an explicit
port that is already bound raises (`portInUse`); otherwise that port is
bound. -/
def tcpServerBind (occupied : Nat → Bool) (freshPort : Nat) (host : BindHost)
    (port : Nat) : Except ServerError TCPHandle :=
  if port = 0 then .ok ⟨host, freshPort⟩
  else if occupied port then .error .portInUse
  else .ok ⟨host, port⟩

/-- Embedding of `start_http_server(root_dir, port=0)`: bind
`("localhost", port)`, start the daemon thread, sleep one second, return
the actual port and the handle.  No HTTP request is ever issued. -/
def start_http_server (occupied : Nat → Bool) (freshPort : Nat) (port : Nat) :
    List StartEv × Except ServerError (Nat × TCPHandle) :=
  match tcpServerBind occupied freshPort .loopback port with
  | .error e => ([], .error e)
  | .ok httpd =>
      ([.bindSocket, .startThread, .sleepOneSecond], .ok (httpd.boundPort, httpd))

/-- Embedding of `find_free_port()`: the OS hands out a free port for a
bind on `('', 0)`. -/
def find_free_port (freshPort : Nat) : Nat :=
  freshPort

/-- Embedding of `is_port_in_use(port)`: a connect on `('localhost', port)`
succeeds exactly when something is bound there. -/
def is_port_in_use (occupied : Nat → Bool) (port : Nat) : Bool :=
  occupied port

/-- The probe loop of `serve_directory`: `for _ in range(5)` attempts of
`urlopen(server_url + "/")`, breaking on the first success.  Returns the
number of attempts made; the loop never changes the control flow that
follows it. -/
def serveProbeAttempts (probe : Nat → Bool) : Nat → Nat → Nat
  | 0, _ => 0
  | fuel + 1, i => if probe i then 1 else 1 + serveProbeAttempts probe fuel (i + 1)

/-- What `serve_directory` has set up at the moment it yields: the bound
socket, the URL handed to the `with` block, and how many liveness probes
were attempted before yielding. -/
structure ServeYield where
  handle : TCPHandle
  serverURL : String
  probesAttempted : Nat
deriving DecidableEq, Repr

/-- Embedding of the setup phase of `serve_directory(directory, port)` up
to its `yield`: resolve `port=None` through `find_free_port`, raise when an
explicit port is occupied, bind `TCPServer(("", port))`, start the serving
thread, probe the root up to five times, then yield the URL. -/
def serve_directory (occupied : Nat → Bool) (freshPort : Nat)
    (port : Option Nat) (probe : Nat → Bool) : Except ServerError ServeYield :=
  match port with
  | none =>
      let p := find_free_port freshPort
      .ok { handle := ⟨.allInterfaces, p⟩
            serverURL := "http://localhost:" ++ toString p
            probesAttempted := serveProbeAttempts probe 5 0 }
  | some p =>
      if is_port_in_use occupied p then .error .portInUse
      else
        .ok { handle := ⟨.allInterfaces, p⟩
              serverURL := "http://localhost:" ++ toString p
              probesAttempted := serveProbeAttempts probe 5 0 }

/-! ## Path arithmetic

Absolute paths are embedded as lists of components.  `os.path.relpath`
strips the common prefix with the start directory and prepends one `".."`
per remaining start component; `os.path.splitext` splits a basename at its
last dot unless every character before that dot is itself a dot. -/

/-- Length of the longest common component prefix of two paths. -/
def commonPrefixLen : List String → List String → Nat
  | a :: as, b :: bs => if a = b then commonPrefixLen as bs + 1 else 0
  | _, _ => 0

/-- Embedding of `os.path.relpath(path, start)` on absolute component
lists: `[".."] * (|start| - common)` followed by the tail of `path`; the
empty result becomes `["."]`. -/
def relpath (path start : List String) : List String :=
  let k := commonPrefixLen path start
  let rel := List.replicate (start.length - k) ".." ++ path.drop k
  if rel = [] then ["."] else rel

/-- Index of the last `'.'` in a list of characters, if any. -/
def lastDotIdx : List Char → Option Nat
  | [] => none
  | c :: cs =>
      match lastDotIdx cs with
      | some i => some (i + 1)
      | none => if c = '.' then some 0 else none

/-- Embedding of `os.path.splitext` on a basename: split at the last dot
provided some earlier character of the name is not a dot. -/
def splitext (s : String) : String × String :=
  let cs := s.toList
  match lastDotIdx cs with
  | none => (s, "")
  | some i =>
      if (cs.take i).any (fun c => c ≠ '.') then
        ((cs.take i).asString, (cs.drop i).asString)
      else (s, "")

/-- The default output path of `convert_html_file_to_image`:
`os.path.splitext(html_file)[0] + ".png"`, i.e. the source document's
extension replaced by `.png` in the same directory. -/
def defaultOutputPath (html_file : List String) : List String :=
  html_file.dropLast ++ [(splitext ((html_file.getLast?).getD "")).1 ++ ".png"]

/-- The claim-side notion of path containment (the spec's invariant that
`absolutePath` be a descendant of the served root), used to state the
path-safety claim: the root's components are a prefix of the document's. -/
def isDescendantOf (path root : List String) : Bool :=
  root.isPrefixOf path

/-! ## `convert_html_file_to_image`

The orchestrator is embedded as a function from the outcomes of its
external interactions to the pair (trace of observable events, returned
value).  The Python `try`/`except`/`finally` structure fixes, for every
combination of outcomes, which events occur and in which order:

* the outer `try` starts the server first; its `finally` shuts the server
  down whenever `httpd` was assigned;
* a failed `requests.get` probe returns `None` from inside the outer `try`;
* `sync_playwright`'s inner `try` has `finally: browser.close()`, and its
  `except` clause swallows every page-phase error into `return None`;
* the outer `except` likewise swallows a server-start or browser-launch
  error into `return None`.
-/

/-- Outcomes of the external interactions of one
`convert_html_file_to_image` call.  Each field states what the outside
world (OS, HTTP stack, browser, page) does when the corresponding call is
reached. -/
structure ConvertEnv where
  /-- `start_http_server` raises (e.g. the bind fails). -/
  serverStartFails : Bool
  /-- the port the server is bound to when the start succeeds. -/
  port : Nat
  /-- the `requests.get` liveness probe raises an exception. -/
  probeRaises : Bool
  /-- the probe response carries status 200 (a non-200 status only prints
  a warning and execution continues). -/
  probeStatus200 : Bool
  /-- `playwright.chromium.launch` raises. -/
  launchFails : Bool
  /-- `goto` / `wait_for_load_state` raise (navigation phase fails). -/
  navFails : Bool
  /-- the page references vega-embed (the `has_vega` evaluation). -/
  hasVega : Bool
  /-- `wait_for_function` on `vegaEmbed` times out (raises). -/
  vegaWaitFails : Bool
  /-- the containers and their signals at the first status check. -/
  containersInitial : List VegaContainer
  /-- the containers and their signals after the post-escalation delay. -/
  containersAfter : List VegaContainer
  /-- the height evaluation or the screenshot raises (capture phase). -/
  captureFails : Bool
deriving Repr

/-- Observable events of one `convert_html_file_to_image` call. -/
inductive Ev
  | bindServer
  | probeServer
  | launchBrowser
  | goto (url : String)
  | checkStatus (allRendered : Bool)
  | forceRender
  | waitMs (ms : Nat)
  | screenshot
  | closeBrowser
  | shutdownServer
deriving DecidableEq, Repr

/-- The Vega branch of the page phase (`if has_vega:`): wait for the
library, settle 3 s, check status, force a re-render, settle 8 s, re-check,
and force a second re-render (plus a 5 s wait) iff still not all rendered.
Returns the events and whether the branch raised. -/
def vegaPhase (env : ConvertEnv) : List Ev × Bool :=
  if !env.hasVega then ([], false)
  else if env.vegaWaitFails then ([], true)
  else
    let st1 := checkVegaRenderStatus env.containersInitial
    let st2 := checkVegaRenderStatus env.containersAfter
    (([.waitMs 3000, .checkStatus st1.allRendered, .forceRender, .waitMs 8000,
       .checkStatus st2.allRendered] ++
      (if !st2.allRendered then [.forceRender, .waitMs 5000] else [])), false)

/-- The body of the inner `try` (everything between page creation and the
`return output_path`), producing the page-phase events and the inner
result; `none` stands for the `return None` of the inner `except`. -/
def pageBody (env : ConvertEnv) (url : String) (output_path : List String) :
    List Ev × Option (List String) :=
  if env.navFails then ([.goto url], none)
  else
    let vega := vegaPhase env
    if vega.2 then ([.goto url] ++ vega.1, none)
    else if env.captureFails then ([.goto url] ++ vega.1 ++ [.waitMs 5000], none)
    else ([.goto url] ++ vega.1 ++ [.waitMs 5000, .screenshot], some output_path)

/-- Embedding of `convert_html_file_to_image(html_file, output_path)`:
resolve the output path, start the server inside the outer `try`, compute
`os.path.relpath(html_file, project_root)` and the URL, probe the server,
run the browser phase, and apply the `finally` blocks (browser close, then
server shutdown) on every path on which the corresponding resource was
acquired. -/
def convert_html_file_to_image (project_root : List String) (env : ConvertEnv)
    (html_file : List String) (output_path : Option (List String)) :
    List Ev × Option (List String) :=
  let out := output_path.getD (defaultOutputPath html_file)
  if env.serverStartFails then
    -- outer except: return None; finally: httpd is still None, nothing to shut down
    ([], none)
  else
    let rel := relpath html_file project_root
    let url := "http://localhost:" ++ toString env.port ++ "/" ++
      String.intercalate "/" rel
    if env.probeRaises then
      -- "无法连接到HTTP服务器": return None from the outer try; finally shuts the server
      ([.bindServer, .probeServer, .shutdownServer], none)
    else if env.launchFails then
      -- launch raises into the outer except: return None; finally shuts the server
      ([.bindServer, .probeServer, .shutdownServer], none)
    else
      let body := pageBody env url out
      ([.bindServer, .probeServer, .launchBrowser] ++ body.1 ++
        [.closeBrowser, .shutdownServer], body.2)

/-! ## Shared concrete inputs and helper lemmas -/

/-- An environment in which every external interaction succeeds and the
single container is rendered after the escalation delay. -/
def happyEnv : ConvertEnv :=
  { serverStartFails := false
    port := 8321
    probeRaises := false
    probeStatus200 := true
    launchFails := false
    navFails := false
    hasVega := true
    vegaWaitFails := false
    containersInitial := [⟨false, false, false⟩]
    containersAfter := [⟨true, false, false⟩]
    captureFails := false }

lemma serveProbeAttempts_le (probe : Nat → Bool) :
    ∀ fuel i, serveProbeAttempts probe fuel i ≤ fuel := by
  intro fuel
  induction fuel with
  | zero => intro i; simp [serveProbeAttempts]
  | succ n ih =>
      intro i
      simp only [serveProbeAttempts]
      split
      · omega
      · have := ih (i + 1)
        omega

lemma serveProbeAttempts_pos (probe : Nat → Bool) (fuel i : Nat)
    (h : 0 < fuel) : 0 < serveProbeAttempts probe fuel i := by
  cases fuel with
  | zero => omega
  | succ n =>
      simp only [serveProbeAttempts]
      split
      · omega
      · omega

/-! ## C5 — container-rendered disjunction and `allRendered` -/

/-- C5: the injected `checkVegaRenderStatus` reports `allRendered = true`
exactly when every discovered container exposes at least one of the three
completion signals (canvas, marks subtree, SVG) — the disjunction, not the
conjunction — and a single container counts as rendered under exactly that
disjunction. -/
theorem C5_allRendered_iff_every_container_has_some_signal
    (cs : List VegaContainer) :
    (checkVegaRenderStatus cs).allRendered = true ↔
      ∀ c ∈ cs, (c.hasCanvas || c.hasMarks || c.hasSVG) = true := by
  rw [checkVegaRenderStatus_allRendered]
  simp [containerRendered, List.all_eq_true]

/-! ## C10 — CORS headers on every response -/

/-- C10 (counterexample): `SimpleHTTPServerWithContentTypes` does not
override `end_headers`, so a response it emits carries no
`Access-Control-Allow-Origin` header at all — the claim that both handlers
attach permissive CORS headers is false. -/
theorem C10_contentTypes_handler_emits_no_cors :
    responseHeaders SimpleHTTPServerWithContentTypes.end_headers
        [("Content-Type", "text/csv")] = [("Content-Type", "text/csv")] ∧
      ∀ h ∈ responseHeaders SimpleHTTPServerWithContentTypes.end_headers
          [("Content-Type", "text/csv")],
        h.1 ≠ "Access-Control-Allow-Origin" := by
  refine ⟨rfl, ?_⟩
  decide

/-- C10 (amended): only `SimpleHTTPServerHandler` (html2image.py) appends
the three permissive CORS headers to every response;
`SimpleHTTPServerWithContentTypes` (html_server.py) leaves the headers of
every response unchanged. -/
theorem C10_only_html2image_handler_emits_cors
    (hs : List (String × String)) :
    ("Access-Control-Allow-Origin", "*") ∈
        responseHeaders SimpleHTTPServerHandler.end_headers hs ∧
      ("Access-Control-Allow-Methods", "GET, POST, OPTIONS") ∈
        responseHeaders SimpleHTTPServerHandler.end_headers hs ∧
      ("Access-Control-Allow-Headers", "Origin, Content-Type, Accept") ∈
        responseHeaders SimpleHTTPServerHandler.end_headers hs ∧
      responseHeaders SimpleHTTPServerWithContentTypes.end_headers hs = hs := by
  simp [responseHeaders, SimpleHTTPServerHandler.end_headers,
    SimpleHTTPServerWithContentTypes.end_headers]

/-! ## C9 — bind interface -/

/-- C9 (counterexample): `serve_directory` binds `TCPServer(("", port))` —
the empty host, i.e. all interfaces: the server it yields is not bound to
the loopback interface. -/
theorem C9_serve_directory_binds_all_interfaces :
    (serve_directory (fun _ => false) 7001 none (fun _ => true)).map
        (fun y => y.handle.host) = .ok BindHost.allInterfaces ∧
      BindHost.allInterfaces ≠ BindHost.loopback := by
  exact ⟨rfl, by decide⟩

/-- C9 (amended): `start_http_server` binds its listening socket to the
loopback interface only, but `serve_directory` binds to all interfaces
(the empty host string). -/
theorem C9_loopback_only_for_start_http_server :
    (∀ (occupied : Nat → Bool) (freshPort port : Nat)
        (res : Nat × TCPHandle),
        (start_http_server occupied freshPort port).2 = .ok res →
          res.2.host = BindHost.loopback) ∧
      (∀ (occupied : Nat → Bool) (freshPort : Nat) (port : Option Nat)
          (probe : Nat → Bool) (y : ServeYield),
          serve_directory occupied freshPort port probe = .ok y →
            y.handle.host = BindHost.allInterfaces) := by
  constructor
  · intro occupied freshPort port res hres
    unfold start_http_server tcpServerBind at hres
    by_cases h0 : port = 0
    · simp [h0] at hres
      subst hres
      rfl
    · by_cases hocc : occupied port = true
      · simp [h0, hocc] at hres
      · simp [h0, hocc] at hres
        subst hres
        rfl
  · intro occupied freshPort port probe y hy
    cases port with
    | none =>
        simp [serve_directory] at hy
        simp [← hy]
    | some p =>
        by_cases hocc : is_port_in_use occupied p = true
        · simp [serve_directory, hocc] at hy
        · simp [serve_directory, hocc] at hy
          simp [← hy]

/-- C9 witness: the amended theorem applied at concrete inputs — a
successful `start_http_server` on auto-assigned port 5050 yields a
loopback-bound handle, and a successful `serve_directory` on port 5051
yields an all-interfaces handle. -/
theorem C9_loopback_only_witness :
    ((5050 : Nat), (⟨BindHost.loopback, 5050⟩ : TCPHandle)).2.host =
        BindHost.loopback ∧
      (ServeYield.mk ⟨BindHost.allInterfaces, 5051⟩ "http://localhost:5051"
          1).handle.host = BindHost.allInterfaces := by
  constructor
  · exact C9_loopback_only_for_start_http_server.1 (fun _ => false) 5050 0
      (5050, ⟨BindHost.loopback, 5050⟩) rfl
  · exact C9_loopback_only_for_start_http_server.2 (fun _ => false) 5051
      (some 5051) (fun _ => true)
      (ServeYield.mk ⟨BindHost.allInterfaces, 5051⟩ "http://localhost:5051" 1)
      rfl

/-! ## C8 — explicit busy port fails, only the sentinel auto-assigns -/

/-- C8: an explicitly requested port that is already bound makes both
start operations fail with the port-in-use failure (`serve_directory`'s
`RuntimeError` after `is_port_in_use`, the bind `OSError` in
`start_http_server`) without binding any other port — `start_http_server`
performs no observable step at all — while the auto-assignment sentinel
(`None` / `0`) makes each server bind the OS-chosen free port. -/
theorem C8_busy_port_fails_sentinel_auto_assigns
    (occupied : Nat → Bool) (freshPort p : Nat) (probe : Nat → Bool)
    (hocc : occupied p = true) (hp : p ≠ 0) :
    serve_directory occupied freshPort (some p) probe =
        .error ServerError.portInUse ∧
      (start_http_server occupied freshPort p).2 =
        .error ServerError.portInUse ∧
      (start_http_server occupied freshPort p).1 = [] ∧
      (serve_directory occupied freshPort none probe).map
          (fun y => y.handle.boundPort) = .ok freshPort ∧
      (start_http_server occupied freshPort 0).2.map (fun r => r.1) =
        .ok freshPort := by
  refine ⟨?_, ?_, ?_, ?_, ?_⟩
  · simp [serve_directory, is_port_in_use, hocc]
  · simp [start_http_server, tcpServerBind, hp, hocc]
  · simp [start_http_server, tcpServerBind, hp, hocc]
  · simp [serve_directory, find_free_port, Except.map]
  · simp [start_http_server, tcpServerBind, Except.map]

/-- C8 witness: the theorem applied with port 8000 already bound
(`occupied = (· = 8000)`), fresh port 8100. -/
theorem C8_busy_port_witness :
    serve_directory (fun n => n = 8000) 8100 (some 8000) (fun _ => true) =
        .error ServerError.portInUse ∧
      (start_http_server (fun n => n = 8000) 8100 8000).2 =
        .error ServerError.portInUse ∧
      (start_http_server (fun n => n = 8000) 8100 8000).1 = [] ∧
      (serve_directory (fun n => n = 8000) 8100 none (fun _ => true)).map
          (fun y => y.handle.boundPort) = .ok 8100 ∧
      (start_http_server (fun n => n = 8000) 8100 0).2.map (fun r => r.1) =
        .ok 8100 :=
  C8_busy_port_fails_sentinel_auto_assigns (fun n => n = 8000) 8100 8000
    (fun _ => true) (by decide) (by decide)

/-! ## C7 — liveness probing before the start operation returns -/

/-- C7 (counterexample): with a server that never answers its root
(`probe` constantly false), `serve_directory` still yields a handle after
exhausting its five probe attempts instead of failing with
`ServerDidNotStart`; and `start_http_server` returns its handle after
performing no probe attempt at all. -/
theorem C7_start_returns_handle_despite_failed_probes :
    (serve_directory (fun _ => false) 6100 none (fun _ => false)).map
        (fun y => y.probesAttempted) = .ok 5 ∧
      (serve_directory (fun _ => false) 6100 none (fun _ => false)).map
        (fun y => y.handle.boundPort) = .ok 6100 ∧
      (start_http_server (fun _ => false) 6100 0).1.count
        StartEv.probeAttempt = 0 ∧
      (start_http_server (fun _ => false) 6100 0).2.map (fun r => r.1) =
        .ok 6100 := by
  refine ⟨rfl, rfl, ?_, rfl⟩
  decide

/-- C7 (amended): `serve_directory` makes between one and five liveness
probe attempts against its own root but yields the server handle whatever
their outcomes; `start_http_server` returns its handle after a fixed
one-second sleep and never issues a probe.  Neither operation has a
`ServerDidNotStart` failure. -/
theorem C7_probing_never_blocks_start
    (occupied : Nat → Bool) (freshPort : Nat) (probe : Nat → Bool) :
    (serve_directory occupied freshPort none probe).map
        (fun y => y.probesAttempted) =
      .ok (serveProbeAttempts probe 5 0) ∧
      1 ≤ serveProbeAttempts probe 5 0 ∧
      serveProbeAttempts probe 5 0 ≤ 5 ∧
      (start_http_server occupied freshPort 0).1.count
        StartEv.probeAttempt = 0 ∧
      (start_http_server occupied freshPort 0).2 =
        .ok (freshPort, ⟨BindHost.loopback, freshPort⟩) := by
  refine ⟨?_, ?_, ?_, ?_, ?_⟩
  · simp [serve_directory, find_free_port, Except.map]
  · exact serveProbeAttempts_pos probe 5 0 (by omega)
  · exact serveProbeAttempts_le probe 5 0
  · simp [start_http_server, tcpServerBind, List.count_cons]
  · simp [start_http_server, tcpServerBind]

/-! ## Characterizations of `convert_html_file_to_image` -/

/-- The returned value is the output path exactly when no phase failed;
every failure — server start, probe, launch, navigation, vega wait,
capture — collapses to the same `none`. -/
lemma convert_result_characterization (pr : List String) (env : ConvertEnv)
    (f : List String) (o : Option (List String)) :
    (convert_html_file_to_image pr env f o).2 =
      (if env.serverStartFails || env.probeRaises || env.launchFails ||
          env.navFails || (env.hasVega && env.vegaWaitFails) ||
          env.captureFails then
        none
      else some (o.getD (defaultOutputPath f))) := by
  rcases env with ⟨ssf, port, prr, ps, lf, nf, hv, vwf, ci, ca, cf⟩
  cases ssf <;> cases prr <;> cases lf <;> cases nf <;> cases hv <;>
    cases vwf <;> cases cf <;>
      simp [convert_html_file_to_image, pageBody, vegaPhase]

/-- The escalation routine `window.forceRenderCharts` appears in the trace
zero times when the vega phase is never reached, once when the
post-escalation check reports all containers rendered, twice otherwise. -/
lemma count_forceRender_characterization (pr : List String)
    (env : ConvertEnv) (f : List String) (o : Option (List String)) :
    (convert_html_file_to_image pr env f o).1.count Ev.forceRender =
      (if env.serverStartFails || env.probeRaises || env.launchFails ||
          env.navFails || !env.hasVega || env.vegaWaitFails then 0
      else if (checkVegaRenderStatus env.containersAfter).allRendered then 1
      else 2) := by
  rcases env with ⟨ssf, port, prr, ps, lf, nf, hv, vwf, ci, ca, cf⟩
  cases ssf <;> cases prr <;> cases lf <;> cases nf <;> cases hv <;>
    cases vwf <;> cases cf <;>
      simp [convert_html_file_to_image, pageBody, vegaPhase,
        List.count_append, List.count_cons] <;>
    cases hca : (checkVegaRenderStatus ca).allRendered <;>
      simp [List.count_append, List.count_cons]

/-! ## C1 — how often the forced re-render escalation runs -/

/-- An environment whose single container never acquires any completion
signal: the page stalls before and after escalation. -/
def stalledEnv : ConvertEnv :=
  { happyEnv with
    containersInitial := [⟨false, false, false⟩]
    containersAfter := [⟨false, false, false⟩] }

/-- C1 (counterexample): on a document whose container is still not
rendered after the initial settle delay (the first status check reports
`allRendered = false`) and remains unrendered after the post-escalation
settle delay, `window.forceRenderCharts` is executed twice within the
same attempt — lines 306 and 322 of html2image.py — contradicting
"at most once per attempt". -/
theorem C1_force_render_runs_twice :
    (convert_html_file_to_image ["root"] stalledEnv ["root", "report.html"]
        none).1.count Ev.forceRender = 2 ∧
      Ev.checkStatus false ∈
        (convert_html_file_to_image ["root"] stalledEnv
          ["root", "report.html"] none).1 := by
  constructor
  · decide
  · decide

/-- C1 (amended): the escalation is bounded, but by two rather than one:
`window.forceRenderCharts` runs at most twice per attempt — once
unconditionally after the initial settle delay, and a second time exactly
when the post-escalation status check still reports not all containers
rendered. -/
theorem C1_escalation_bounded_by_two :
    (∀ (pr : List String) (env : ConvertEnv) (f : List String)
        (o : Option (List String)),
        (convert_html_file_to_image pr env f o).1.count Ev.forceRender ≤ 2) ∧
      (∀ (pr : List String) (env : ConvertEnv) (f : List String)
          (o : Option (List String)),
          env.serverStartFails = false → env.probeRaises = false →
          env.launchFails = false → env.navFails = false →
          env.hasVega = true → env.vegaWaitFails = false →
          (convert_html_file_to_image pr env f o).1.count Ev.forceRender =
            (if (checkVegaRenderStatus env.containersAfter).allRendered
              then 1 else 2)) := by
  constructor
  · intro pr env f o
    rw [count_forceRender_characterization]
    split
    · omega
    · split <;> omega
  · intro pr env f o hs hp hl hn hv hw
    rw [count_forceRender_characterization]
    simp [hs, hp, hl, hn, hv, hw]

/-- C1 witness: the amended count law applied to the stalled environment,
whose post-escalation check reports not all rendered, giving exactly two
escalations. -/
theorem C1_escalation_bounded_witness :
    (convert_html_file_to_image ["w"] stalledEnv ["w", "x.html"]
        none).1.count Ev.forceRender =
      (if (checkVegaRenderStatus stalledEnv.containersAfter).allRendered
        then 1 else 2) :=
  C1_escalation_bounded_by_two.2 ["w"] stalledEnv ["w", "x.html"] none
    rfl rfl rfl rfl rfl rfl

/-! ## C2 — path safety -/

lemma commonPrefixLen_lt_of_not_prefix :
    ∀ (f pr : List String), pr.isPrefixOf f = false →
      commonPrefixLen f pr < pr.length := by
  intro f pr
  induction pr generalizing f with
  | nil => intro h; simp [List.isPrefixOf] at h
  | cons b bs ih =>
      intro h
      cases f with
      | nil => simp [commonPrefixLen]
      | cons a as =>
          by_cases hab : a = b
          · subst hab
            simp [List.isPrefixOf] at h
            have := ih as h
            simp [commonPrefixLen]
            omega
          · simp [commonPrefixLen, hab]

lemma dotdot_mem_relpath (f pr : List String)
    (h : isDescendantOf f pr = false) : ".." ∈ relpath f pr := by
  have hlt : commonPrefixLen f pr < pr.length :=
    commonPrefixLen_lt_of_not_prefix f pr (by simpa [isDescendantOf] using h)
  have hmem : ".." ∈
      List.replicate (pr.length - commonPrefixLen f pr) ".." ++
        f.drop (commonPrefixLen f pr) :=
    List.mem_append_left _ (List.mem_replicate.mpr ⟨by omega, rfl⟩)
  have hne : List.replicate (pr.length - commonPrefixLen f pr) ".." ++
      f.drop (commonPrefixLen f pr) ≠ [] := by
    intro hnil
    rw [hnil] at hmem
    exact List.not_mem_nil _ hmem
  simpa [relpath, hne] using hmem

/-- C2 (counterexample): for a document outside the served root
(`home/other/doc.html` against root `home/proj`) the call does not reject
at all: the server socket is bound first (the head of the trace), the
relative URL is computed with `..` segments, and the conversion runs to
completion returning an output path. -/
theorem C2_outside_root_not_rejected :
    isDescendantOf ["home", "other", "doc.html"] ["home", "proj"] = false ∧
      (convert_html_file_to_image ["home", "proj"] happyEnv
          ["home", "other", "doc.html"] none).1.head? =
        some Ev.bindServer ∧
      (convert_html_file_to_image ["home", "proj"] happyEnv
          ["home", "other", "doc.html"] none).2 =
        some ["home", "other", "doc.png"] := by
  refine ⟨by decide, by decide, by decide⟩

/-- C2 (amended): `convert_html_file_to_image` performs no containment
check: even when the document's path is not a descendant of the served
root, the server is acquired first (the trace starts with the bind), the
computed relative path contains parent-directory `..` segments, and —
absent unrelated failures — the call returns the output image path
instead of rejecting with any `DocumentOutsideServedRoot` failure. -/
theorem C2_no_containment_check (pr f : List String)
    (o : Option (List String)) (env : ConvertEnv)
    (hout : isDescendantOf f pr = false)
    (hs : env.serverStartFails = false) (hp : env.probeRaises = false)
    (hl : env.launchFails = false) (hn : env.navFails = false)
    (hw : env.vegaWaitFails = false) (hc : env.captureFails = false) :
    (convert_html_file_to_image pr env f o).1.head? = some Ev.bindServer ∧
      (convert_html_file_to_image pr env f o).2 =
        some (o.getD (defaultOutputPath f)) ∧
      ".." ∈ relpath f pr := by
  refine ⟨?_, ?_, dotdot_mem_relpath f pr hout⟩
  · simp [convert_html_file_to_image, hs, hp, hl]
  · rw [convert_result_characterization]
    simp [hs, hp, hl, hn, hw, hc]

/-- C2 witness: the amended statement at the concrete outside path
`home/evil/page.html` against served root `home/proj`, in the properly
behaving environment. -/
theorem C2_no_containment_check_witness :
    (convert_html_file_to_image ["home", "proj"] happyEnv
        ["home", "evil", "page.html"] none).1.head? = some Ev.bindServer ∧
      (convert_html_file_to_image ["home", "proj"] happyEnv
          ["home", "evil", "page.html"] none).2 =
        some ((none : Option (List String)).getD
          (defaultOutputPath ["home", "evil", "page.html"])) ∧
      ".." ∈ relpath ["home", "evil", "page.html"] ["home", "proj"] :=
  C2_no_containment_check ["home", "proj"] ["home", "evil", "page.html"]
    none happyEnv (by decide) rfl rfl rfl rfl rfl rfl

/-! ## C3 — teardown on every exit path -/

lemma getLast?_append_pair (l : List Ev) (a b : Ev) :
    (l ++ [a, b]).getLast? = some b := by
  rw [List.getLast?_append]
  simp

lemma dropLast_append_pair (l : List Ev) (a b : Ev) :
    (l ++ [a, b]).dropLast = l ++ [a] := by
  rw [show l ++ [a, b] = (l ++ [a]) ++ [b] by simp, List.dropLast_concat]

/-- Neither `browser.close()` nor `httpd.shutdown()` happens inside the
page phase: those events come only from the `finally` blocks. -/
lemma pageBody_no_teardown (env : ConvertEnv) (url : String)
    (out : List String) :
    Ev.closeBrowser ∉ (pageBody env url out).1 ∧
      Ev.shutdownServer ∉ (pageBody env url out).1 := by
  unfold pageBody vegaPhase
  split
  · simp
  · split <;> split <;> try split
    all_goals simp_all

/-- The exact trace on each class of exit path once the server start
succeeded: an early return (probe failure or launch failure) still shuts
the server down, and the full page phase is bracketed by the browser
close and then the server shutdown. -/
lemma convert_trace_shape (pr : List String) (env : ConvertEnv)
    (f : List String) (o : Option (List String))
    (hs : env.serverStartFails = false) :
    (env.probeRaises = true ∨ env.launchFails = true →
        (convert_html_file_to_image pr env f o).1 =
          [Ev.bindServer, Ev.probeServer, Ev.shutdownServer]) ∧
      (env.probeRaises = false → env.launchFails = false →
        (convert_html_file_to_image pr env f o).1 =
          [Ev.bindServer, Ev.probeServer, Ev.launchBrowser] ++
            (pageBody env
              ("http://localhost:" ++ toString env.port ++ "/" ++
                String.intercalate "/" (relpath f pr))
              (o.getD (defaultOutputPath f))).1 ++
            [Ev.closeBrowser, Ev.shutdownServer]) := by
  constructor
  · rintro (hp | hl)
    · simp [convert_html_file_to_image, hs, hp]
    · by_cases hp : env.probeRaises = true
      · simp [convert_html_file_to_image, hs, hp]
      · simp only [Bool.not_eq_true] at hp
        simp [convert_html_file_to_image, hs, hp, hl]
  · intro hp hl
    simp [convert_html_file_to_image, hs, hp, hl]

/-- C3: on every exit path of `convert_html_file_to_image` the acquired
resources are released in strict reverse order: when the server start
itself failed nothing was acquired and the trace is empty; otherwise the
server shutdown is the last event and occurs exactly once, the browser
close occurs exactly once iff the browser was launched, and when it was,
the close immediately precedes the shutdown. -/
theorem C3_session_then_server_teardown (pr : List String)
    (env : ConvertEnv) (f : List String) (o : Option (List String)) :
    (env.serverStartFails = true →
        (convert_html_file_to_image pr env f o).1 = []) ∧
      (env.serverStartFails = false →
        (convert_html_file_to_image pr env f o).1.getLast? =
            some Ev.shutdownServer ∧
          (convert_html_file_to_image pr env f o).1.count
              Ev.shutdownServer = 1 ∧
          (convert_html_file_to_image pr env f o).1.count Ev.closeBrowser =
            (if env.probeRaises || env.launchFails then 0 else 1) ∧
          (env.probeRaises = false → env.launchFails = false →
            (convert_html_file_to_image pr env f o).1.dropLast.getLast? =
              some Ev.closeBrowser)) := by
  constructor
  · intro hs
    simp [convert_html_file_to_image, hs]
  · intro hs
    by_cases hearly : env.probeRaises = true ∨ env.launchFails = true
    · rw [(convert_trace_shape pr env f o hs).1 hearly]
      rcases hearly with hp | hl
      · simp [hp]
      · simp [hl]
    · push_neg at hearly
      obtain ⟨hp, hl⟩ := hearly
      simp only [Bool.not_eq_true] at hp hl
      rw [(convert_trace_shape pr env f o hs).2 hp hl]
      set body := (pageBody env
        ("http://localhost:" ++ toString env.port ++ "/" ++
          String.intercalate "/" (relpath f pr))
        (o.getD (defaultOutputPath f))).1 with hbody
      have hnb := pageBody_no_teardown env
        ("http://localhost:" ++ toString env.port ++ "/" ++
          String.intercalate "/" (relpath f pr))
        (o.getD (defaultOutputPath f))
      rw [← hbody] at hnb
      refine ⟨?_, ?_, ?_, ?_⟩
      · rw [show [Ev.bindServer, Ev.probeServer, Ev.launchBrowser] ++ body ++
            [Ev.closeBrowser, Ev.shutdownServer] =
          ([Ev.bindServer, Ev.probeServer, Ev.launchBrowser] ++ body) ++
            [Ev.closeBrowser, Ev.shutdownServer] by simp]
        exact getLast?_append_pair _ _ _
      · simp [List.count_append, List.count_eq_zero.mpr hnb.2]
      · simp [hp, hl, List.count_append, List.count_eq_zero.mpr hnb.1]
      · intro _ _
        rw [show [Ev.bindServer, Ev.probeServer, Ev.launchBrowser] ++ body ++
              [Ev.closeBrowser, Ev.shutdownServer] =
            ([Ev.bindServer, Ev.probeServer, Ev.launchBrowser] ++ body) ++
              [Ev.closeBrowser, Ev.shutdownServer] by simp,
          dropLast_append_pair, List.getLast?_concat]

/-- C3 witness: the teardown guarantee applied in the properly behaving
environment: the trace ends with the browser close immediately followed
by the server shutdown. -/
theorem C3_session_then_server_teardown_witness :
    (convert_html_file_to_image ["w3"] happyEnv ["w3", "r.html"]
          none).1.getLast? = some Ev.shutdownServer ∧
      (convert_html_file_to_image ["w3"] happyEnv ["w3", "r.html"]
          none).1.dropLast.getLast? = some Ev.closeBrowser := by
  have h := (C3_session_then_server_teardown ["w3"] happyEnv
    ["w3", "r.html"] none).2 rfl
  exact ⟨h.1, h.2.2.2 rfl rfl⟩

/-! ## C4 — timed-out readiness still captures -/

/-- C4: when the post-escalation status check still reports not all
containers rendered (the detector's timed-out outcome), the call neither
raises nor returns a failure: absent unrelated failures it proceeds to the
full-page screenshot and returns the output image path. -/
theorem C4_timed_out_is_best_effort_capture (pr f : List String)
    (o : Option (List String)) (env : ConvertEnv)
    (hs : env.serverStartFails = false) (hp : env.probeRaises = false)
    (hl : env.launchFails = false) (hn : env.navFails = false)
    (hv : env.hasVega = true) (hw : env.vegaWaitFails = false)
    (hc : env.captureFails = false)
    (hto : (checkVegaRenderStatus env.containersAfter).allRendered = false) :
    (convert_html_file_to_image pr env f o).2 =
        some (o.getD (defaultOutputPath f)) ∧
      Ev.screenshot ∈ (convert_html_file_to_image pr env f o).1 := by
  refine ⟨?_, ?_⟩
  · rw [convert_result_characterization]
    simp [hs, hp, hl, hn, hw, hc]
  · simp [convert_html_file_to_image, pageBody, vegaPhase, hs, hp, hl, hn,
      hv, hw, hc, hto]

/-- C4 witness: the stalled environment (no container ever renders) still
produces the default output path and a screenshot event. -/
theorem C4_timed_out_witness :
    (convert_html_file_to_image ["w4"] stalledEnv ["w4", "doc.html"]
          none).2 =
        some ((none : Option (List String)).getD
          (defaultOutputPath ["w4", "doc.html"])) ∧
      Ev.screenshot ∈
        (convert_html_file_to_image ["w4"] stalledEnv ["w4", "doc.html"]
          none).1 :=
  C4_timed_out_is_best_effort_capture ["w4"] ["w4", "doc.html"] none
    stalledEnv rfl rfl rfl rfl rfl rfl rfl (by decide)

/-! ## C6 — failure kinds visible to the caller -/

/-- An environment in which the acquisition phase fails: the liveness
probe against the just-started server raises. -/
def acquisitionFailEnv : ConvertEnv :=
  { happyEnv with probeRaises := true }

/-- An environment in which the capture phase fails: the screenshot
raises. -/
def captureFailEnv : ConvertEnv :=
  { happyEnv with captureFails := true }

/-- C6 (counterexample): an acquisition failure (server unreachable) and a
capture failure both make `convert_html_file_to_image` return the very
same generic `None` — the caller receives no named failure kind and cannot
distinguish the failed phase. -/
theorem C6_acquisition_and_capture_failures_indistinguishable :
    (convert_html_file_to_image ["r6"] acquisitionFailEnv ["r6", "a.html"]
          none).2 = none ∧
      (convert_html_file_to_image ["r6"] captureFailEnv ["r6", "a.html"]
          none).2 = none ∧
      (convert_html_file_to_image ["r6"] acquisitionFailEnv ["r6", "a.html"]
          none).2 =
        (convert_html_file_to_image ["r6"] captureFailEnv ["r6", "a.html"]
          none).2 := by
  refine ⟨by decide, by decide, by decide⟩

/-- C6 (amended): every failure — server start, probe, browser launch,
navigation, vega wait, capture — is swallowed by an `except` clause and
surfaced as the same generic `None` return value; no distinct, named
failure kinds propagate to the caller. -/
theorem C6_every_failure_returns_generic_none (pr f : List String)
    (o : Option (List String)) (env : ConvertEnv)
    (h : env.serverStartFails = true ∨ env.probeRaises = true ∨
      env.launchFails = true ∨ env.navFails = true ∨
      (env.hasVega = true ∧ env.vegaWaitFails = true) ∨
      env.captureFails = true) :
    (convert_html_file_to_image pr env f o).2 = none := by
  rw [convert_result_characterization]
  rcases h with h | h | h | h | ⟨h1, h2⟩ | h
  · simp [h]
  · simp [h]
  · simp [h]
  · simp [h]
  · simp [h1, h2]
  · simp [h]

/-- C6 witness: the generic-`None` law applied to the environment whose
navigation phase fails. -/
theorem C6_generic_none_witness :
    (convert_html_file_to_image ["w6"] { happyEnv with navFails := true }
        ["w6", "b.html"] none).2 = none :=
  C6_every_failure_returns_generic_none ["w6"] ["w6", "b.html"] none
    { happyEnv with navFails := true } (Or.inr (Or.inr (Or.inr (Or.inl rfl))))

end DataReport
